import Mathlib

/-!
Shallow embedding of `src/registryWrapper/wrapper.cpp` (notcpuid/registryWrapper).

The file has four functions:
  - `Wrapper::RegWrite(LPCWSTR path, LPCWSTR name, LPCWSTR value, DWORD type)`
  - `Wrapper::RegWrite(LPCWSTR path, LPCWSTR name, DWORD value, DWORD type)`
  - `Wrapper::RegDel(LPCWSTR path)`
  - `Wrapper::RegDel(LPCWSTR path, LPCWSTR name)`
Each resolves a root key from a 5-character path start, calls Windows
registry primitives, and converts any failure into a `MessageBoxA` call via a
local try/catch. Since Lean cannot overload on argument types the way C++
does, the overloads are named `RegWriteText`, `RegWriteNum`, `RegDelKey`,
`RegDelValue` here. The Windows primitives are external calls; their return
statuses are supplied by an environment `RegEnv`, and each function is
embedded as the trace of external actions it performs.
-/

/-- Wide strings (`LPCWSTR`): the sequence of wide characters before the
terminating null. Registry paths and names carry no embedded nulls. -/
abbrev WStr := List Char

/-- `wcslen`: number of wide characters before the terminating null. -/
def wcslen (s : WStr) : Nat := s.length

/-- `wcsncmp(s, t, n) == 0`: compares at most `n` wide characters and stops at
the terminating null of either string; `true` iff the compared region is
equal. -/
def wcsncmpEq : WStr → WStr → Nat → Bool
  | _, _, 0 => true
  | [], [], _ + 1 => true
  | [], _ :: _, _ + 1 => false
  | _ :: _, [], _ + 1 => false
  | a :: s, b :: t, n + 1 => a == b && wcsncmpEq s t n

/-- The three registry root handles that can appear in the code
(`HKEY_CURRENT_USER` is also the default). -/
inductive RootKey where
  | HKEY_CURRENT_USER
  | HKEY_LOCAL_MACHINE
  | HKEY_CLASSES_ROOT
deriving DecidableEq, Repr

/-- `L"HKCU\\"` as a wide string. -/
def hkcuStr : WStr := ['H', 'K', 'C', 'U', '\\']

/-- `L"HKLM\\"` as a wide string. -/
def hklmStr : WStr := ['H', 'K', 'L', 'M', '\\']

/-- `L"HKCR\\"` as a wide string. -/
def hkcrStr : WStr := ['H', 'K', 'C', 'R', '\\']

/-- `const wchar_t* branch[] = ...`: the array of the three 5-character path
starts, in source order. -/
def branch : List WStr := [hkcuStr, hklmStr, hkcrStr]

/-- `HKEY keys[] = ...`: the root handle matching each entry of `branch`. -/
def keys : List RootKey :=
  [RootKey.HKEY_CURRENT_USER, RootKey.HKEY_LOCAL_MACHINE, RootKey.HKEY_CLASSES_ROOT]

/-- Pointer width of the 64-bit build: `sizeof(const wchar_t*)` is 8. -/
def wordSize : Nat := 8

/-- `sizeof(branch)`: the BYTE size of the array of three pointers (24 on a
64-bit build), which the source uses as the loop bound `j < sizeof(branch)`. -/
def sizeofBranch : Nat := branch.length * wordSize

/-- The matching loop
`for (int j = 0; j < sizeof(branch); j++) if (wcsncmp(path, branch[j], 5) == 0) ...break;`
unrolled on a fuel of `sizeofBranch` iterations starting at `j`. An index at
or past `branch.length` reads past the end of the array (undefined behavior
in C++); the model lets such a read compare unequal so the loop runs on. -/
def findRootIdxFuel : WStr → Nat → Nat → Option Nat
  | _, _, 0 => none
  | path, j, fuel + 1 =>
    match branch.get? j with
    | some pre => if wcsncmpEq path pre 5 then some j else findRootIdxFuel path (j + 1) fuel
    | none => findRootIdxFuel path (j + 1) fuel

/-- Index of the first matching entry of `branch`, if the loop finds one. -/
def findRootIdx (path : WStr) : Option Nat := findRootIdxFuel path 0 sizeofBranch

/-- The list of indices `j` at which the loop reads `branch[j]`, in order. -/
def loopAccessesFuel : WStr → Nat → Nat → List Nat
  | _, _, 0 => []
  | path, j, fuel + 1 =>
    j :: (match branch.get? j with
      | some pre => if wcsncmpEq path pre 5 then [] else loopAccessesFuel path (j + 1) fuel
      | none => loopAccessesFuel path (j + 1) fuel)

/-- Indices read from `branch` by one run of the matching loop. -/
def loopAccesses (path : WStr) : List Nat := loopAccessesFuel path 0 sizeofBranch

/-- Shared start of all four functions: `rootKey` defaults to
`HKEY_CURRENT_USER`; on a match at `j` the root becomes `keys[j]` and the
path pointer advances past the 5 matched characters (`path += 5`). -/
def resolveRoot (path : WStr) : RootKey × WStr :=
  match findRootIdx path with
  | some j => ((keys.get? j).getD RootKey.HKEY_CURRENT_USER, path.drop 5)
  | none => (RootKey.HKEY_CURRENT_USER, path)

/-! Windows API constants used by the source. -/

def ERROR_SUCCESS : Nat := 0
def MB_ICONERROR : Nat := 16
def KEY_WRITE : Nat := 0x20006
def KEY_ALL_ACCESS : Nat := 0xF003F
def REG_OPTION_NON_VOLATILE : Nat := 0

/-- `sizeof(wchar_t)` on Windows. -/
def sizeofWchar : Nat := 2

/-- `sizeof(DWORD)`. -/
def sizeofDWORD : Nat := 4

/-- Little-endian bytes of one wide character. -/
def wcharBytes (c : Char) : List Nat := [c.toNat % 256, c.toNat / 256 % 256]

/-- Bytes at the address `(LPBYTE)value` for a null-terminated wide string:
each character in order, then the two-byte terminator. -/
def wideBytes : WStr → List Nat
  | [] => wcharBytes (Char.ofNat 0)
  | c :: s => wcharBytes c ++ wideBytes s

/-- Bytes at the address `(LPBYTE)&value` for a `DWORD`, little-endian. -/
def dwordBytes (v : Nat) : List Nat :=
  [v % 256, v / 256 % 256, v / 65536 % 256, v / 16777216 % 256]

/-- Statuses the external Windows registry primitives would return when
called; `0` is `ERROR_SUCCESS`, anything else is a failure. -/
structure RegEnv where
  createKeyStatus : Nat
  setValueStatus : Nat
  deleteKeyStatus : Nat
  openKeyStatus : Nat
  deleteValueStatus : Nat
deriving DecidableEq, Repr

/-- One observable external call made by a wrapper function. -/
inductive RegAction where
  | createKey (root : RootKey) (subkey : WStr) (options : Nat) (samDesired : Nat)
  | setValue (vname : WStr) (vtype : Nat) (data : List Nat) (cbData : Nat)
  | closeKey
  | deleteKey (root : RootKey) (subkey : WStr)
  | openKey (root : RootKey) (subkey : WStr) (samDesired : Nat)
  | deleteValue (vname : WStr)
  | messageBox (text : String) (caption : String) (uType : Nat)
deriving DecidableEq, Repr

/-- What one call to a wrapper function looks like from outside: the ordered
trace of external calls, plus the exception escaping the function, if any.
The functions return `void`, so there is no return value to record. -/
structure FnOutcome where
  trace : List RegAction
  uncaught : Option String
deriving DecidableEq, Repr

/-- The try/catch wrapping each function body: a `std::runtime_error` thrown
in the body is caught by `catch (const std::exception& ex)` and turned into
`MessageBoxA(NULL, ex.what(), "error", MB_ICONERROR)`; nothing escapes. -/
def catchReport : List RegAction × Option String → FnOutcome
  | (acts, none) => ⟨acts, none⟩
  | (acts, some msg) => ⟨acts ++ [RegAction.messageBox msg "error" MB_ICONERROR], none⟩

/-- Body of `Wrapper::RegWrite(LPCWSTR, LPCWSTR, LPCWSTR, DWORD)` inside the
try block: create the key with `REG_OPTION_NON_VOLATILE`/`KEY_WRITE`, then
set the value with byte count `(wcslen(value) + 1) * sizeof(wchar_t)`, then
close; a failed step throws its diagnostic string. -/
def regWriteTextBody (env : RegEnv) (path vname value : WStr) (vtype : Nat) :
    List RegAction × Option String :=
  let r := resolveRoot path
  let a0 := RegAction.createKey r.1 r.2 REG_OPTION_NON_VOLATILE KEY_WRITE
  if env.createKeyStatus = ERROR_SUCCESS then
    let a1 := RegAction.setValue vname vtype (wideBytes value) ((wcslen value + 1) * sizeofWchar)
    if env.setValueStatus = ERROR_SUCCESS then
      ([a0, a1, RegAction.closeKey], none)
    else
      ([a0, a1], some "failed to RegSetValueEx")
  else
    ([a0], some "failed to RegCreateKeyEx")

/-- `Wrapper::RegWrite` (text overload). -/
def RegWriteText (env : RegEnv) (path vname value : WStr) (vtype : Nat) : FnOutcome :=
  catchReport (regWriteTextBody env path vname value vtype)

/-- Body of `Wrapper::RegWrite(LPCWSTR, LPCWSTR, DWORD, DWORD)` inside the
try block: same as the text overload but the data is `(LPBYTE)&value` with
byte count `sizeof(value)`. -/
def regWriteNumBody (env : RegEnv) (path vname : WStr) (value vtype : Nat) :
    List RegAction × Option String :=
  let r := resolveRoot path
  let a0 := RegAction.createKey r.1 r.2 REG_OPTION_NON_VOLATILE KEY_WRITE
  if env.createKeyStatus = ERROR_SUCCESS then
    let a1 := RegAction.setValue vname vtype (dwordBytes value) sizeofDWORD
    if env.setValueStatus = ERROR_SUCCESS then
      ([a0, a1, RegAction.closeKey], none)
    else
      ([a0, a1], some "failed to RegSetValueEx")
  else
    ([a0], some "failed to RegCreateKeyEx")

/-- `Wrapper::RegWrite` (numeric overload). -/
def RegWriteNum (env : RegEnv) (path vname : WStr) (value vtype : Nat) : FnOutcome :=
  catchReport (regWriteNumBody env path vname value vtype)

/-- Body of `Wrapper::RegDel(LPCWSTR)` inside the try block: delete the
subkey, then close; a failed delete throws its diagnostic string. -/
def regDelKeyBody (env : RegEnv) (path : WStr) : List RegAction × Option String :=
  let r := resolveRoot path
  let a0 := RegAction.deleteKey r.1 r.2
  if env.deleteKeyStatus = ERROR_SUCCESS then
    ([a0, RegAction.closeKey], none)
  else
    ([a0], some "failed to RegDeleteKey")

/-- `Wrapper::RegDel` (delete-key overload). -/
def RegDelKey (env : RegEnv) (path : WStr) : FnOutcome :=
  catchReport (regDelKeyBody env path)

/-- Body of `Wrapper::RegDel(LPCWSTR, LPCWSTR)` inside the try block: open
the subkey with `KEY_ALL_ACCESS`, delete the named value, then close; a
failed step throws its diagnostic string. -/
def regDelValueBody (env : RegEnv) (path vname : WStr) : List RegAction × Option String :=
  let r := resolveRoot path
  let a0 := RegAction.openKey r.1 r.2 KEY_ALL_ACCESS
  if env.openKeyStatus = ERROR_SUCCESS then
    let a1 := RegAction.deleteValue vname
    if env.deleteValueStatus = ERROR_SUCCESS then
      ([a0, a1, RegAction.closeKey], none)
    else
      ([a0, a1], some "failed to RegDeleteValue")
  else
    ([a0], some "failed to RegOpenKeyEx")

/-- `Wrapper::RegDel` (delete-value overload). -/
def RegDelValue (env : RegEnv) (path vname : WStr) : FnOutcome :=
  catchReport (regDelValueBody env path vname)

/-- The five diagnostic strings the source can ever display, one per
registry primitive. -/
def errorMessages : List String :=
  ["failed to RegCreateKeyEx", "failed to RegSetValueEx", "failed to RegDeleteKey",
   "failed to RegOpenKeyEx", "failed to RegDeleteValue"]

/-- Whether an external action is a `MessageBoxA` call. -/
def isMessageBox : RegAction → Bool
  | RegAction.messageBox _ _ _ => true
  | _ => false

/-! Helper lemmas about the matching loop and resolution. -/

/-- `wcsncmp(s, t, n) == 0` exactly when the first `n` characters agree. -/
theorem wcsncmpEq_iff (s t : WStr) (n : Nat) :
    wcsncmpEq s t n = true ↔ s.take n = t.take n := by
  induction s generalizing t n with
  | nil =>
    cases t with
    | nil => cases n <;> simp [wcsncmpEq]
    | cons b t => cases n <;> simp [wcsncmpEq]
  | cons a s ih =>
    cases t with
    | nil => cases n <;> simp [wcsncmpEq]
    | cons b t =>
      cases n with
      | zero => simp [wcsncmpEq]
      | succ n => simp [wcsncmpEq, ih, List.take_succ_cons, and_comm]

theorem sizeofBranch_eq : sizeofBranch = 24 := rfl

theorem findRootIdxFuel_step (path : WStr) (j fuel : Nat) (pre : WStr)
    (hget : branch.get? j = some pre) :
    findRootIdxFuel path j (fuel + 1) =
      if wcsncmpEq path pre 5 = true then some j else findRootIdxFuel path (j + 1) fuel := by
  simp only [findRootIdxFuel]
  rw [hget]

theorem findRootIdxFuel_oob (path : WStr) :
    ∀ fuel j, branch.length ≤ j → findRootIdxFuel path j fuel = none := by
  intro fuel
  induction fuel with
  | zero => intro j _; rfl
  | succ n ih =>
    intro j h
    have hg : branch.get? j = none := by
      rw [List.get?_eq_none]
      exact h
    simp only [findRootIdxFuel, hg]
    exact ih (j + 1) (Nat.le_succ_of_le h)

/-- The loop finds the first of the three entries whose 5 characters start
`path`, and nothing else. -/
theorem findRootIdx_eq (path : WStr) :
    findRootIdx path =
      if wcsncmpEq path hkcuStr 5 = true then some 0
      else if wcsncmpEq path hklmStr 5 = true then some 1
      else if wcsncmpEq path hkcrStr 5 = true then some 2
      else none := by
  have h0 : branch.get? 0 = some hkcuStr := rfl
  have h1 : branch.get? 1 = some hklmStr := rfl
  have h2 : branch.get? 2 = some hkcrStr := rfl
  show findRootIdxFuel path 0 (23 + 1) = _
  rw [findRootIdxFuel_step path 0 23 hkcuStr h0]
  by_cases c1 : wcsncmpEq path hkcuStr 5 = true
  · simp [c1]
  · rw [if_neg c1, if_neg c1]
    show findRootIdxFuel path 1 (22 + 1) = _
    rw [findRootIdxFuel_step path 1 22 hklmStr h1]
    by_cases c2 : wcsncmpEq path hklmStr 5 = true
    · simp [c2]
    · rw [if_neg c2, if_neg c2]
      show findRootIdxFuel path 2 (21 + 1) = _
      rw [findRootIdxFuel_step path 2 21 hkcrStr h2]
      by_cases c3 : wcsncmpEq path hkcrStr 5 = true
      · simp [c3]
      · rw [if_neg c3, if_neg c3]
        exact findRootIdxFuel_oob path 21 3 (by decide)

/-- Resolution, written out: first match in source order wins, otherwise the
default root with the path untouched. -/
theorem resolveRoot_eq (path : WStr) :
    resolveRoot path =
      if path.take 5 = hkcuStr then (RootKey.HKEY_CURRENT_USER, path.drop 5)
      else if path.take 5 = hklmStr then (RootKey.HKEY_LOCAL_MACHINE, path.drop 5)
      else if path.take 5 = hkcrStr then (RootKey.HKEY_CLASSES_ROOT, path.drop 5)
      else (RootKey.HKEY_CURRENT_USER, path) := by
  have t1 : (wcsncmpEq path hkcuStr 5 = true) ↔ path.take 5 = hkcuStr := by
    rw [wcsncmpEq_iff, show List.take 5 hkcuStr = hkcuStr from rfl]
  have t2 : (wcsncmpEq path hklmStr 5 = true) ↔ path.take 5 = hklmStr := by
    rw [wcsncmpEq_iff, show List.take 5 hklmStr = hklmStr from rfl]
  have t3 : (wcsncmpEq path hkcrStr 5 = true) ↔ path.take 5 = hkcrStr := by
    rw [wcsncmpEq_iff, show List.take 5 hkcrStr = hkcrStr from rfl]
  unfold resolveRoot
  rw [findRootIdx_eq]
  simp only [t1, t2, t3]
  by_cases p1 : path.take 5 = hkcuStr
  · rw [if_pos p1, if_pos p1]; rfl
  · rw [if_neg p1, if_neg p1]
    by_cases p2 : path.take 5 = hklmStr
    · rw [if_pos p2, if_pos p2]; rfl
    · rw [if_neg p2, if_neg p2]
      by_cases p3 : path.take 5 = hkcrStr
      · rw [if_pos p3, if_pos p3]; rfl
      · rw [if_neg p3, if_neg p3]

theorem loopAccessesFuel_step (path : WStr) (j fuel : Nat) (pre : WStr)
    (hget : branch.get? j = some pre) :
    loopAccessesFuel path j (fuel + 1) =
      j :: (if wcsncmpEq path pre 5 = true then [] else loopAccessesFuel path (j + 1) fuel) := by
  simp only [loopAccessesFuel]
  rw [hget]

theorem loopAccessesFuel_stepNone (path : WStr) (j fuel : Nat)
    (hget : branch.get? j = none) :
    loopAccessesFuel path j (fuel + 1) = j :: loopAccessesFuel path (j + 1) fuel := by
  simp only [loopAccessesFuel]
  rw [hget]

/-- When no entry of `branch` matches, the loop walks every index from `j`
for `fuel` steps: nothing stops it before the byte-size bound. -/
theorem loopAccessesFuel_nomatch (path : WStr)
    (h : ∀ pre ∈ branch, wcsncmpEq path pre 5 = false) :
    ∀ fuel j, loopAccessesFuel path j fuel = List.range' j fuel := by
  intro fuel
  induction fuel with
  | zero => intro j; rfl
  | succ n ih =>
    intro j
    cases hg : branch.get? j with
    | none =>
      rw [loopAccessesFuel_stepNone path j n hg, ih (j + 1)]
      rfl
    | some pre =>
      have hm : wcsncmpEq path pre 5 = false := h pre (List.get?_mem hg)
      rw [loopAccessesFuel_step path j n pre hg, hm]
      simp only [Bool.false_eq_true, if_false]
      rw [ih (j + 1)]
      rfl

/-! Trace shapes of the four wrapper functions, one equation per
success/failure combination of the underlying primitives. -/

theorem RegWriteText_trace (env : RegEnv) (path vname value : WStr) (vtype : Nat) :
    RegWriteText env path vname value vtype =
      if env.createKeyStatus = ERROR_SUCCESS then
        if env.setValueStatus = ERROR_SUCCESS then
          ⟨[RegAction.createKey (resolveRoot path).1 (resolveRoot path).2
              REG_OPTION_NON_VOLATILE KEY_WRITE,
            RegAction.setValue vname vtype (wideBytes value) ((wcslen value + 1) * sizeofWchar),
            RegAction.closeKey], none⟩
        else
          ⟨[RegAction.createKey (resolveRoot path).1 (resolveRoot path).2
              REG_OPTION_NON_VOLATILE KEY_WRITE,
            RegAction.setValue vname vtype (wideBytes value) ((wcslen value + 1) * sizeofWchar),
            RegAction.messageBox "failed to RegSetValueEx" "error" MB_ICONERROR], none⟩
      else
        ⟨[RegAction.createKey (resolveRoot path).1 (resolveRoot path).2
            REG_OPTION_NON_VOLATILE KEY_WRITE,
          RegAction.messageBox "failed to RegCreateKeyEx" "error" MB_ICONERROR], none⟩ := by
  unfold RegWriteText regWriteTextBody
  by_cases h1 : env.createKeyStatus = ERROR_SUCCESS <;>
    by_cases h2 : env.setValueStatus = ERROR_SUCCESS <;>
      simp [h1, h2, catchReport]

theorem RegWriteNum_trace (env : RegEnv) (path vname : WStr) (value vtype : Nat) :
    RegWriteNum env path vname value vtype =
      if env.createKeyStatus = ERROR_SUCCESS then
        if env.setValueStatus = ERROR_SUCCESS then
          ⟨[RegAction.createKey (resolveRoot path).1 (resolveRoot path).2
              REG_OPTION_NON_VOLATILE KEY_WRITE,
            RegAction.setValue vname vtype (dwordBytes value) sizeofDWORD,
            RegAction.closeKey], none⟩
        else
          ⟨[RegAction.createKey (resolveRoot path).1 (resolveRoot path).2
              REG_OPTION_NON_VOLATILE KEY_WRITE,
            RegAction.setValue vname vtype (dwordBytes value) sizeofDWORD,
            RegAction.messageBox "failed to RegSetValueEx" "error" MB_ICONERROR], none⟩
      else
        ⟨[RegAction.createKey (resolveRoot path).1 (resolveRoot path).2
            REG_OPTION_NON_VOLATILE KEY_WRITE,
          RegAction.messageBox "failed to RegCreateKeyEx" "error" MB_ICONERROR], none⟩ := by
  unfold RegWriteNum regWriteNumBody
  by_cases h1 : env.createKeyStatus = ERROR_SUCCESS <;>
    by_cases h2 : env.setValueStatus = ERROR_SUCCESS <;>
      simp [h1, h2, catchReport]

theorem RegDelKey_trace (env : RegEnv) (path : WStr) :
    RegDelKey env path =
      if env.deleteKeyStatus = ERROR_SUCCESS then
        ⟨[RegAction.deleteKey (resolveRoot path).1 (resolveRoot path).2,
          RegAction.closeKey], none⟩
      else
        ⟨[RegAction.deleteKey (resolveRoot path).1 (resolveRoot path).2,
          RegAction.messageBox "failed to RegDeleteKey" "error" MB_ICONERROR], none⟩ := by
  unfold RegDelKey regDelKeyBody
  by_cases h1 : env.deleteKeyStatus = ERROR_SUCCESS <;> simp [h1, catchReport]

theorem RegDelValue_trace (env : RegEnv) (path vname : WStr) :
    RegDelValue env path vname =
      if env.openKeyStatus = ERROR_SUCCESS then
        if env.deleteValueStatus = ERROR_SUCCESS then
          ⟨[RegAction.openKey (resolveRoot path).1 (resolveRoot path).2 KEY_ALL_ACCESS,
            RegAction.deleteValue vname, RegAction.closeKey], none⟩
        else
          ⟨[RegAction.openKey (resolveRoot path).1 (resolveRoot path).2 KEY_ALL_ACCESS,
            RegAction.deleteValue vname,
            RegAction.messageBox "failed to RegDeleteValue" "error" MB_ICONERROR], none⟩
      else
        ⟨[RegAction.openKey (resolveRoot path).1 (resolveRoot path).2 KEY_ALL_ACCESS,
          RegAction.messageBox "failed to RegOpenKeyEx" "error" MB_ICONERROR], none⟩ := by
  unfold RegDelValue regDelValueBody
  by_cases h1 : env.openKeyStatus = ERROR_SUCCESS <;>
    by_cases h2 : env.deleteValueStatus = ERROR_SUCCESS <;>
      simp [h1, h2, catchReport]

/-- The first external call of each function addresses the resolved root and
subkey, whatever the primitive statuses are. -/
theorem traces_start_at_resolved (env : RegEnv) (path vname value : WStr) (num vtype : Nat) :
    (RegWriteText env path vname value vtype).trace.head? =
      some (RegAction.createKey (resolveRoot path).1 (resolveRoot path).2
        REG_OPTION_NON_VOLATILE KEY_WRITE) ∧
    (RegWriteNum env path vname num vtype).trace.head? =
      some (RegAction.createKey (resolveRoot path).1 (resolveRoot path).2
        REG_OPTION_NON_VOLATILE KEY_WRITE) ∧
    (RegDelKey env path).trace.head? =
      some (RegAction.deleteKey (resolveRoot path).1 (resolveRoot path).2) ∧
    (RegDelValue env path vname).trace.head? =
      some (RegAction.openKey (resolveRoot path).1 (resolveRoot path).2 KEY_ALL_ACCESS) := by
  rw [RegWriteText_trace, RegWriteNum_trace, RegDelKey_trace, RegDelValue_trace]
  by_cases h1 : env.createKeyStatus = ERROR_SUCCESS <;>
    by_cases h2 : env.setValueStatus = ERROR_SUCCESS <;>
      by_cases h3 : env.deleteKeyStatus = ERROR_SUCCESS <;>
        by_cases h4 : env.openKeyStatus = ERROR_SUCCESS <;>
          by_cases h5 : env.deleteValueStatus = ERROR_SUCCESS <;>
            simp [h1, h2, h3, h4, h5]

/-! Claims. -/

/-- Claim C1: for every input path whose first 5 characters literally and
case-sensitively equal one of `"HKCU\\"`, `"HKLM\\"`, `"HKCR\\"`, every
operation resolves the root to the corresponding handle (first match in
source order) and uses as effective subkey the path with those 5 characters
stripped. -/
theorem c1_matched_root_and_subkey (env : RegEnv) (path vname value : WStr)
    (num vtype : Nat) (root : RootKey)
    (h : (path.take 5 = hkcuStr ∧ root = RootKey.HKEY_CURRENT_USER) ∨
         (path.take 5 = hklmStr ∧ root = RootKey.HKEY_LOCAL_MACHINE) ∨
         (path.take 5 = hkcrStr ∧ root = RootKey.HKEY_CLASSES_ROOT)) :
    resolveRoot path = (root, path.drop 5) ∧
    (RegWriteText env path vname value vtype).trace.head? =
      some (RegAction.createKey root (path.drop 5) REG_OPTION_NON_VOLATILE KEY_WRITE) ∧
    (RegWriteNum env path vname num vtype).trace.head? =
      some (RegAction.createKey root (path.drop 5) REG_OPTION_NON_VOLATILE KEY_WRITE) ∧
    (RegDelKey env path).trace.head? =
      some (RegAction.deleteKey root (path.drop 5)) ∧
    (RegDelValue env path vname).trace.head? =
      some (RegAction.openKey root (path.drop 5) KEY_ALL_ACCESS) := by
  have hres : resolveRoot path = (root, path.drop 5) := by
    rw [resolveRoot_eq]
    rcases h with ⟨hp, hr⟩ | ⟨hp, hr⟩ | ⟨hp, hr⟩
    · rw [if_pos hp, hr]
    · rw [if_neg (by rw [hp]; decide), if_pos hp, hr]
    · rw [if_neg (by rw [hp]; decide), if_neg (by rw [hp]; decide), if_pos hp, hr]
  have hs := traces_start_at_resolved env path vname value num vtype
  rw [hres] at hs
  exact ⟨hres, hs.1, hs.2.1, hs.2.2.1, hs.2.2.2⟩

theorem c1_matched_root_and_subkey_witness :
    resolveRoot ['H', 'K', 'L', 'M', '\\', 'S'] = (RootKey.HKEY_LOCAL_MACHINE, ['S']) ∧
    (RegWriteText ⟨0, 0, 0, 0, 0⟩ ['H', 'K', 'L', 'M', '\\', 'S'] ['n'] ['v'] 1).trace.head? =
      some (RegAction.createKey RootKey.HKEY_LOCAL_MACHINE ['S']
        REG_OPTION_NON_VOLATILE KEY_WRITE) ∧
    (RegWriteNum ⟨0, 0, 0, 0, 0⟩ ['H', 'K', 'L', 'M', '\\', 'S'] ['n'] 7 1).trace.head? =
      some (RegAction.createKey RootKey.HKEY_LOCAL_MACHINE ['S']
        REG_OPTION_NON_VOLATILE KEY_WRITE) ∧
    (RegDelKey ⟨0, 0, 0, 0, 0⟩ ['H', 'K', 'L', 'M', '\\', 'S']).trace.head? =
      some (RegAction.deleteKey RootKey.HKEY_LOCAL_MACHINE ['S']) ∧
    (RegDelValue ⟨0, 0, 0, 0, 0⟩ ['H', 'K', 'L', 'M', '\\', 'S'] ['n']).trace.head? =
      some (RegAction.openKey RootKey.HKEY_LOCAL_MACHINE ['S'] KEY_ALL_ACCESS) :=
  c1_matched_root_and_subkey ⟨0, 0, 0, 0, 0⟩ ['H', 'K', 'L', 'M', '\\', 'S'] ['n'] ['v'] 7 1
    RootKey.HKEY_LOCAL_MACHINE (Or.inr (Or.inl ⟨by decide, rfl⟩))

/-- Claim C2: for every input path that begins with none of the three known
5-character sequences, every operation resolves the root to the default
`HKEY_CURRENT_USER` and uses the unmodified path as effective subkey, and an
unmatched path is never treated as an error (when the primitives succeed no
message box appears). -/
theorem c2_unmatched_default_root (env : RegEnv) (path vname value : WStr)
    (num vtype : Nat)
    (h1 : path.take 5 ≠ hkcuStr) (h2 : path.take 5 ≠ hklmStr)
    (h3 : path.take 5 ≠ hkcrStr) :
    resolveRoot path = (RootKey.HKEY_CURRENT_USER, path) ∧
    (RegWriteText env path vname value vtype).trace.head? =
      some (RegAction.createKey RootKey.HKEY_CURRENT_USER path
        REG_OPTION_NON_VOLATILE KEY_WRITE) ∧
    (RegWriteNum env path vname num vtype).trace.head? =
      some (RegAction.createKey RootKey.HKEY_CURRENT_USER path
        REG_OPTION_NON_VOLATILE KEY_WRITE) ∧
    (RegDelKey env path).trace.head? =
      some (RegAction.deleteKey RootKey.HKEY_CURRENT_USER path) ∧
    (RegDelValue env path vname).trace.head? =
      some (RegAction.openKey RootKey.HKEY_CURRENT_USER path KEY_ALL_ACCESS) ∧
    (env.createKeyStatus = ERROR_SUCCESS → env.setValueStatus = ERROR_SUCCESS →
      ∀ a ∈ (RegWriteText env path vname value vtype).trace, isMessageBox a = false) ∧
    (env.createKeyStatus = ERROR_SUCCESS → env.setValueStatus = ERROR_SUCCESS →
      ∀ a ∈ (RegWriteNum env path vname num vtype).trace, isMessageBox a = false) ∧
    (env.deleteKeyStatus = ERROR_SUCCESS →
      ∀ a ∈ (RegDelKey env path).trace, isMessageBox a = false) ∧
    (env.openKeyStatus = ERROR_SUCCESS → env.deleteValueStatus = ERROR_SUCCESS →
      ∀ a ∈ (RegDelValue env path vname).trace, isMessageBox a = false) := by
  have hres : resolveRoot path = (RootKey.HKEY_CURRENT_USER, path) := by
    rw [resolveRoot_eq, if_neg h1, if_neg h2, if_neg h3]
  have hs := traces_start_at_resolved env path vname value num vtype
  rw [hres] at hs
  refine ⟨hres, hs.1, hs.2.1, hs.2.2.1, hs.2.2.2, ?_, ?_, ?_, ?_⟩
  · intro hc hv a ha
    rw [RegWriteText_trace, if_pos hc, if_pos hv] at ha
    simp only [List.mem_cons, List.not_mem_nil, or_false] at ha
    rcases ha with rfl | rfl | rfl <;> rfl
  · intro hc hv a ha
    rw [RegWriteNum_trace, if_pos hc, if_pos hv] at ha
    simp only [List.mem_cons, List.not_mem_nil, or_false] at ha
    rcases ha with rfl | rfl | rfl <;> rfl
  · intro hd a ha
    rw [RegDelKey_trace, if_pos hd] at ha
    simp only [List.mem_cons, List.not_mem_nil, or_false] at ha
    rcases ha with rfl | rfl <;> rfl
  · intro ho hv a ha
    rw [RegDelValue_trace, if_pos ho, if_pos hv] at ha
    simp only [List.mem_cons, List.not_mem_nil, or_false] at ha
    rcases ha with rfl | rfl | rfl <;> rfl

theorem c2_unmatched_default_root_witness :
    resolveRoot ['S', 'W'] = (RootKey.HKEY_CURRENT_USER, ['S', 'W']) ∧
    (RegDelKey ⟨0, 0, 0, 0, 0⟩ ['S', 'W']).trace.head? =
      some (RegAction.deleteKey RootKey.HKEY_CURRENT_USER ['S', 'W']) :=
  ⟨(c2_unmatched_default_root ⟨0, 0, 0, 0, 0⟩ ['S', 'W'] ['n'] ['v'] 7 1
      (by decide) (by decide) (by decide)).1,
   (c2_unmatched_default_root ⟨0, 0, 0, 0, 0⟩ ['S', 'W'] ['n'] ['v'] 7 1
      (by decide) (by decide) (by decide)).2.2.2.1⟩

/-- Claim C3: the matching loop's bound is `sizeof(branch)` — the byte size
of the array of three pointers, 24 on the 64-bit build — not the element
count 3, so on any path matching no entry the loop indexes `branch[3]`
through `branch[sizeof(branch) - 1]`, reading past the end of the 3-element
array before terminating. -/
theorem c3_loop_bound_is_byte_size (path : WStr)
    (h : ∀ pre ∈ branch, wcsncmpEq path pre 5 = false) :
    sizeofBranch = 24 ∧ branch.length = 3 ∧ sizeofBranch ≠ branch.length ∧
    loopAccesses path = List.range' 0 sizeofBranch ∧
    (∀ k, branch.length ≤ k → k < sizeofBranch →
      k ∈ loopAccesses path ∧ branch.get? k = none) := by
  have hl : loopAccesses path = List.range' 0 sizeofBranch :=
    loopAccessesFuel_nomatch path h sizeofBranch 0
  refine ⟨rfl, rfl, by decide, hl, ?_⟩
  intro k h3 h24
  rw [sizeofBranch_eq] at h24
  constructor
  · rw [hl, sizeofBranch_eq, List.mem_range'_1]
    omega
  · rw [List.get?_eq_none]
    exact h3

theorem c3_loop_bound_is_byte_size_witness :
    (∀ pre ∈ branch, wcsncmpEq (['S', 'W'] : WStr) pre 5 = false) ∧
    (3 : Nat) ∈ loopAccesses ['S', 'W'] ∧
    (23 : Nat) ∈ loopAccesses ['S', 'W'] ∧
    branch.get? 23 = none := by
  have h : ∀ pre ∈ branch, wcsncmpEq (['S', 'W'] : WStr) pre 5 = false := by decide
  refine ⟨h, ?_, ?_, ?_⟩
  · exact ((c3_loop_bound_is_byte_size ['S', 'W'] h).2.2.2.2 3 (by decide) (by decide)).1
  · exact ((c3_loop_bound_is_byte_size ['S', 'W'] h).2.2.2.2 23 (by decide) (by decide)).1
  · exact ((c3_loop_bound_is_byte_size ['S', 'W'] h).2.2.2.2 23 (by decide) (by decide)).2

/-- Claim C10: because each known 5-character sequence includes the trailing
backslash and the comparison covers exactly 5 characters, a path naming a
root without the trailing backslash — one of the 4-character names alone, or
followed by any character other than a backslash — matches nothing and is
used unmodified as a subkey under the default `HKEY_CURRENT_USER`. -/
theorem c10_root_without_backslash_unmatched (root4 : WStr)
    (h : root4 = ['H', 'K', 'C', 'U'] ∨ root4 = ['H', 'K', 'L', 'M'] ∨
         root4 = ['H', 'K', 'C', 'R']) :
    resolveRoot root4 = (RootKey.HKEY_CURRENT_USER, root4) ∧
    (∀ c : Char, c ≠ '\\' → ∀ rest : WStr,
      resolveRoot (root4 ++ c :: rest) =
        (RootKey.HKEY_CURRENT_USER, root4 ++ c :: rest)) := by
  rcases h with rfl | rfl | rfl
  · refine ⟨?_, ?_⟩
    · rw [resolveRoot_eq, if_neg (by decide), if_neg (by decide), if_neg (by decide)]
    · intro c hc rest
      have ht : ((['H', 'K', 'C', 'U'] : WStr) ++ c :: rest).take 5 =
          ['H', 'K', 'C', 'U', c] := rfl
      have n1 : ¬((['H', 'K', 'C', 'U', c] : WStr) = hkcuStr) := by
        intro he
        unfold hkcuStr at he
        injection he with e1 he; injection he with e2 he; injection he with e3 he
        injection he with e4 he; injection he with e5 he
        exact hc e5
      have n2 : ¬((['H', 'K', 'C', 'U', c] : WStr) = hklmStr) := by
        intro he
        unfold hklmStr at he
        injection he with e1 he; injection he with e2 he; injection he with e3 he
        exact absurd e3 (by decide)
      have n3 : ¬((['H', 'K', 'C', 'U', c] : WStr) = hkcrStr) := by
        intro he
        unfold hkcrStr at he
        injection he with e1 he; injection he with e2 he; injection he with e3 he
        injection he with e4 he
        exact absurd e4 (by decide)
      rw [resolveRoot_eq, ht, if_neg n1, if_neg n2, if_neg n3]
  · refine ⟨?_, ?_⟩
    · rw [resolveRoot_eq, if_neg (by decide), if_neg (by decide), if_neg (by decide)]
    · intro c hc rest
      have ht : ((['H', 'K', 'L', 'M'] : WStr) ++ c :: rest).take 5 =
          ['H', 'K', 'L', 'M', c] := rfl
      have n1 : ¬((['H', 'K', 'L', 'M', c] : WStr) = hkcuStr) := by
        intro he
        unfold hkcuStr at he
        injection he with e1 he; injection he with e2 he; injection he with e3 he
        exact absurd e3 (by decide)
      have n2 : ¬((['H', 'K', 'L', 'M', c] : WStr) = hklmStr) := by
        intro he
        unfold hklmStr at he
        injection he with e1 he; injection he with e2 he; injection he with e3 he
        injection he with e4 he; injection he with e5 he
        exact hc e5
      have n3 : ¬((['H', 'K', 'L', 'M', c] : WStr) = hkcrStr) := by
        intro he
        unfold hkcrStr at he
        injection he with e1 he; injection he with e2 he; injection he with e3 he
        exact absurd e3 (by decide)
      rw [resolveRoot_eq, ht, if_neg n1, if_neg n2, if_neg n3]
  · refine ⟨?_, ?_⟩
    · rw [resolveRoot_eq, if_neg (by decide), if_neg (by decide), if_neg (by decide)]
    · intro c hc rest
      have ht : ((['H', 'K', 'C', 'R'] : WStr) ++ c :: rest).take 5 =
          ['H', 'K', 'C', 'R', c] := rfl
      have n1 : ¬((['H', 'K', 'C', 'R', c] : WStr) = hkcuStr) := by
        intro he
        unfold hkcuStr at he
        injection he with e1 he; injection he with e2 he; injection he with e3 he
        injection he with e4 he
        exact absurd e4 (by decide)
      have n2 : ¬((['H', 'K', 'C', 'R', c] : WStr) = hklmStr) := by
        intro he
        unfold hklmStr at he
        injection he with e1 he; injection he with e2 he; injection he with e3 he
        exact absurd e3 (by decide)
      have n3 : ¬((['H', 'K', 'C', 'R', c] : WStr) = hkcrStr) := by
        intro he
        unfold hkcrStr at he
        injection he with e1 he; injection he with e2 he; injection he with e3 he
        injection he with e4 he; injection he with e5 he
        exact hc e5
      rw [resolveRoot_eq, ht, if_neg n1, if_neg n2, if_neg n3]

theorem c10_root_without_backslash_unmatched_witness :
    resolveRoot ['H', 'K', 'C', 'U'] = (RootKey.HKEY_CURRENT_USER, ['H', 'K', 'C', 'U']) ∧
    resolveRoot ['H', 'K', 'C', 'U', 'x'] =
      (RootKey.HKEY_CURRENT_USER, ['H', 'K', 'C', 'U', 'x']) :=
  ⟨(c10_root_without_backslash_unmatched ['H', 'K', 'C', 'U'] (Or.inl rfl)).1,
   (c10_root_without_backslash_unmatched ['H', 'K', 'C', 'U'] (Or.inl rfl)).2
     'x' (by decide) []⟩

theorem isMessageBox_createKey (a : RootKey) (b : WStr) (c d : Nat) :
    isMessageBox (RegAction.createKey a b c d) = false := rfl

theorem isMessageBox_setValue (a : WStr) (b : Nat) (c : List Nat) (d : Nat) :
    isMessageBox (RegAction.setValue a b c d) = false := rfl

theorem isMessageBox_closeKey : isMessageBox RegAction.closeKey = false := rfl

theorem isMessageBox_deleteKey (a : RootKey) (b : WStr) :
    isMessageBox (RegAction.deleteKey a b) = false := rfl

theorem isMessageBox_openKey (a : RootKey) (b : WStr) (c : Nat) :
    isMessageBox (RegAction.openKey a b c) = false := rfl

theorem isMessageBox_deleteValue (a : WStr) :
    isMessageBox (RegAction.deleteValue a) = false := rfl

theorem isMessageBox_messageBox (a b : String) (c : Nat) :
    isMessageBox (RegAction.messageBox a b c) = true := rfl

theorem catchReport_uncaught (b : List RegAction × Option String) :
    (catchReport b).uncaught = none := by
  rcases b with ⟨acts, _ | msg⟩ <;> rfl

/-- Claim C4: every failure of an underlying registry primitive is caught
locally and turned into a user-facing notification; the call returns
normally — no exception propagates and the caller gets no error code. -/
theorem c4_failures_caught_and_reported (env : RegEnv) (path vname value : WStr)
    (num vtype : Nat) :
    ((RegWriteText env path vname value vtype).uncaught = none ∧
     (RegWriteNum env path vname num vtype).uncaught = none ∧
     (RegDelKey env path).uncaught = none ∧
     (RegDelValue env path vname).uncaught = none) ∧
    (¬(env.createKeyStatus = ERROR_SUCCESS ∧ env.setValueStatus = ERROR_SUCCESS) →
      ∃ msg, RegAction.messageBox msg "error" MB_ICONERROR ∈
        (RegWriteText env path vname value vtype).trace) ∧
    (¬(env.createKeyStatus = ERROR_SUCCESS ∧ env.setValueStatus = ERROR_SUCCESS) →
      ∃ msg, RegAction.messageBox msg "error" MB_ICONERROR ∈
        (RegWriteNum env path vname num vtype).trace) ∧
    (¬env.deleteKeyStatus = ERROR_SUCCESS →
      ∃ msg, RegAction.messageBox msg "error" MB_ICONERROR ∈
        (RegDelKey env path).trace) ∧
    (¬(env.openKeyStatus = ERROR_SUCCESS ∧ env.deleteValueStatus = ERROR_SUCCESS) →
      ∃ msg, RegAction.messageBox msg "error" MB_ICONERROR ∈
        (RegDelValue env path vname).trace) := by
  refine ⟨⟨catchReport_uncaught _, catchReport_uncaught _,
           catchReport_uncaught _, catchReport_uncaught _⟩, ?_, ?_, ?_, ?_⟩
  · intro hf
    rw [RegWriteText_trace]
    by_cases hc : env.createKeyStatus = ERROR_SUCCESS
    · have hv : ¬env.setValueStatus = ERROR_SUCCESS := fun hv => hf ⟨hc, hv⟩
      rw [if_pos hc, if_neg hv]
      exact ⟨"failed to RegSetValueEx", by simp⟩
    · rw [if_neg hc]
      exact ⟨"failed to RegCreateKeyEx", by simp⟩
  · intro hf
    rw [RegWriteNum_trace]
    by_cases hc : env.createKeyStatus = ERROR_SUCCESS
    · have hv : ¬env.setValueStatus = ERROR_SUCCESS := fun hv => hf ⟨hc, hv⟩
      rw [if_pos hc, if_neg hv]
      exact ⟨"failed to RegSetValueEx", by simp⟩
    · rw [if_neg hc]
      exact ⟨"failed to RegCreateKeyEx", by simp⟩
  · intro hf
    rw [RegDelKey_trace, if_neg hf]
    exact ⟨"failed to RegDeleteKey", by simp⟩
  · intro hf
    rw [RegDelValue_trace]
    by_cases ho : env.openKeyStatus = ERROR_SUCCESS
    · have hv : ¬env.deleteValueStatus = ERROR_SUCCESS := fun hv => hf ⟨ho, hv⟩
      rw [if_pos ho, if_neg hv]
      exact ⟨"failed to RegDeleteValue", by simp⟩
    · rw [if_neg ho]
      exact ⟨"failed to RegOpenKeyEx", by simp⟩

theorem c4_failures_caught_and_reported_witness :
    (RegWriteText ⟨1, 1, 1, 1, 1⟩ ['p'] ['n'] ['v'] 1).uncaught = none ∧
    (∃ msg, RegAction.messageBox msg "error" MB_ICONERROR ∈
      (RegWriteText ⟨1, 1, 1, 1, 1⟩ ['p'] ['n'] ['v'] 1).trace) ∧
    (∃ msg, RegAction.messageBox msg "error" MB_ICONERROR ∈
      (RegDelKey ⟨1, 1, 1, 1, 1⟩ ['p']).trace) :=
  ⟨(c4_failures_caught_and_reported ⟨1, 1, 1, 1, 1⟩ ['p'] ['n'] ['v'] 7 1).1.1,
   (c4_failures_caught_and_reported ⟨1, 1, 1, 1, 1⟩ ['p'] ['n'] ['v'] 7 1).2.1 (by decide),
   (c4_failures_caught_and_reported ⟨1, 1, 1, 1, 1⟩ ['p'] ['n'] ['v'] 7 1).2.2.2.1 (by decide)⟩

theorem wideBytes_length (s : WStr) :
    (wideBytes s).length = (s.length + 1) * sizeofWchar := by
  induction s with
  | nil => rfl
  | cons c s ih =>
    rw [show wideBytes (c :: s) = wcharBytes c ++ wideBytes s from rfl,
      List.length_append, ih, show (wcharBytes c).length = 2 from rfl,
      List.length_cons]
    simp only [sizeofWchar]
    ring

/-- Claim C5: the byte length a text write hands to the store primitive is
exactly `(character count of the value + 1) * sizeof(wchar_t)`, and the data
handed over is the null-terminated wide-character payload of that length. -/
theorem c5_text_value_byte_length (env : RegEnv) (path vname value : WStr) (vtype : Nat) :
    (wideBytes value).length = (wcslen value + 1) * sizeofWchar ∧
    (env.createKeyStatus = ERROR_SUCCESS →
      RegAction.setValue vname vtype (wideBytes value) ((wcslen value + 1) * sizeofWchar) ∈
        (RegWriteText env path vname value vtype).trace) ∧
    (∀ n t d cb,
      RegAction.setValue n t d cb ∈ (RegWriteText env path vname value vtype).trace →
        d = wideBytes value ∧ cb = (wcslen value + 1) * sizeofWchar) := by
  refine ⟨wideBytes_length value, ?_, ?_⟩
  · intro hc
    rw [RegWriteText_trace]
    by_cases hv : env.setValueStatus = ERROR_SUCCESS
    · rw [if_pos hc, if_pos hv]
      simp
    · rw [if_pos hc, if_neg hv]
      simp
  · intro n t d cb hm
    rw [RegWriteText_trace] at hm
    by_cases hc : env.createKeyStatus = ERROR_SUCCESS
    · by_cases hv : env.setValueStatus = ERROR_SUCCESS
      · rw [if_pos hc, if_pos hv] at hm
        simp only [List.mem_cons, List.not_mem_nil, or_false] at hm
        rcases hm with hm | hm | hm
        · exact RegAction.noConfusion hm
        · injection hm with e1 e2 e3 e4
          exact ⟨e3, e4⟩
        · exact RegAction.noConfusion hm
      · rw [if_pos hc, if_neg hv] at hm
        simp only [List.mem_cons, List.not_mem_nil, or_false] at hm
        rcases hm with hm | hm | hm
        · exact RegAction.noConfusion hm
        · injection hm with e1 e2 e3 e4
          exact ⟨e3, e4⟩
        · exact RegAction.noConfusion hm
    · rw [if_neg hc] at hm
      simp only [List.mem_cons, List.not_mem_nil, or_false] at hm
      rcases hm with hm | hm
      · exact RegAction.noConfusion hm
      · exact RegAction.noConfusion hm

theorem c5_text_value_byte_length_witness :
    (wideBytes ['H', 'i']).length = (wcslen ['H', 'i'] + 1) * sizeofWchar ∧
    RegAction.setValue ['n'] 1 (wideBytes ['H', 'i'])
        ((wcslen ['H', 'i'] + 1) * sizeofWchar) ∈
      (RegWriteText ⟨0, 0, 0, 0, 0⟩ ['p'] ['n'] ['H', 'i'] 1).trace :=
  ⟨(c5_text_value_byte_length ⟨0, 0, 0, 0, 0⟩ ['p'] ['n'] ['H', 'i'] 1).1,
   (c5_text_value_byte_length ⟨0, 0, 0, 0, 0⟩ ['p'] ['n'] ['H', 'i'] 1).2.1 rfl⟩

/-- Claim C6: a numeric write always stores exactly `sizeof(DWORD)` = 4
bytes — the value's binary representation — whatever type tag the caller
supplies. -/
theorem c6_numeric_payload_size (env : RegEnv) (path vname : WStr) (num vtype : Nat) :
    (dwordBytes num).length = sizeofDWORD ∧
    (env.createKeyStatus = ERROR_SUCCESS →
      RegAction.setValue vname vtype (dwordBytes num) sizeofDWORD ∈
        (RegWriteNum env path vname num vtype).trace) ∧
    (∀ n t d cb,
      RegAction.setValue n t d cb ∈ (RegWriteNum env path vname num vtype).trace →
        d = dwordBytes num ∧ cb = sizeofDWORD ∧ d.length = sizeofDWORD) := by
  refine ⟨rfl, ?_, ?_⟩
  · intro hc
    rw [RegWriteNum_trace]
    by_cases hv : env.setValueStatus = ERROR_SUCCESS
    · rw [if_pos hc, if_pos hv]
      simp
    · rw [if_pos hc, if_neg hv]
      simp
  · intro n t d cb hm
    rw [RegWriteNum_trace] at hm
    by_cases hc : env.createKeyStatus = ERROR_SUCCESS
    · by_cases hv : env.setValueStatus = ERROR_SUCCESS
      · rw [if_pos hc, if_pos hv] at hm
        simp only [List.mem_cons, List.not_mem_nil, or_false] at hm
        rcases hm with hm | hm | hm
        · exact RegAction.noConfusion hm
        · injection hm with e1 e2 e3 e4
          exact ⟨e3, e4, by rw [e3]; rfl⟩
        · exact RegAction.noConfusion hm
      · rw [if_pos hc, if_neg hv] at hm
        simp only [List.mem_cons, List.not_mem_nil, or_false] at hm
        rcases hm with hm | hm | hm
        · exact RegAction.noConfusion hm
        · injection hm with e1 e2 e3 e4
          exact ⟨e3, e4, by rw [e3]; rfl⟩
        · exact RegAction.noConfusion hm
    · rw [if_neg hc] at hm
      simp only [List.mem_cons, List.not_mem_nil, or_false] at hm
      rcases hm with hm | hm
      · exact RegAction.noConfusion hm
      · exact RegAction.noConfusion hm

theorem c6_numeric_payload_size_witness :
    (dwordBytes 305419896).length = sizeofDWORD ∧
    RegAction.setValue ['n'] 11 (dwordBytes 305419896) sizeofDWORD ∈
      (RegWriteNum ⟨0, 0, 0, 0, 0⟩ ['p'] ['n'] 305419896 11).trace :=
  ⟨(c6_numeric_payload_size ⟨0, 0, 0, 0, 0⟩ ['p'] ['n'] 305419896 11).1,
   (c6_numeric_payload_size ⟨0, 0, 0, 0, 0⟩ ['p'] ['n'] 305419896 11).2.1 rfl⟩

/-- Claim C7: in both `RegWrite` overloads the opened key handle is closed
exactly when key creation and value write both succeed; when the value-write
step fails after a successful creation no `RegCloseKey` happens before the
function returns. -/
theorem c7_close_key_iff_all_steps_succeed (env : RegEnv) (path vname value : WStr)
    (num vtype : Nat) :
    (RegAction.closeKey ∈ (RegWriteText env path vname value vtype).trace ↔
      env.createKeyStatus = ERROR_SUCCESS ∧ env.setValueStatus = ERROR_SUCCESS) ∧
    (RegAction.closeKey ∈ (RegWriteNum env path vname num vtype).trace ↔
      env.createKeyStatus = ERROR_SUCCESS ∧ env.setValueStatus = ERROR_SUCCESS) := by
  rw [RegWriteText_trace, RegWriteNum_trace]
  by_cases h1 : env.createKeyStatus = ERROR_SUCCESS <;>
    by_cases h2 : env.setValueStatus = ERROR_SUCCESS <;>
      simp [h1, h2]

/-- Claim C8: `RegDel(path, name)` performs, in order: resolve, open the
subkey with `KEY_ALL_ACCESS`, delete the named value, release the handle;
when the open or the delete fails it reports through the blocking
notification and performs no further registry action. -/
theorem c8_delete_value_sequence (env : RegEnv) (path vname : WStr) :
    (env.openKeyStatus = ERROR_SUCCESS → env.deleteValueStatus = ERROR_SUCCESS →
      (RegDelValue env path vname).trace =
        [RegAction.openKey (resolveRoot path).1 (resolveRoot path).2 KEY_ALL_ACCESS,
         RegAction.deleteValue vname, RegAction.closeKey]) ∧
    (¬env.openKeyStatus = ERROR_SUCCESS →
      (RegDelValue env path vname).trace =
        [RegAction.openKey (resolveRoot path).1 (resolveRoot path).2 KEY_ALL_ACCESS,
         RegAction.messageBox "failed to RegOpenKeyEx" "error" MB_ICONERROR]) ∧
    (env.openKeyStatus = ERROR_SUCCESS → ¬env.deleteValueStatus = ERROR_SUCCESS →
      (RegDelValue env path vname).trace =
        [RegAction.openKey (resolveRoot path).1 (resolveRoot path).2 KEY_ALL_ACCESS,
         RegAction.deleteValue vname,
         RegAction.messageBox "failed to RegDeleteValue" "error" MB_ICONERROR]) := by
  refine ⟨?_, ?_, ?_⟩
  · intro ho hv
    rw [RegDelValue_trace, if_pos ho, if_pos hv]
  · intro ho
    rw [RegDelValue_trace, if_neg ho]
  · intro ho hv
    rw [RegDelValue_trace, if_pos ho, if_neg hv]

theorem c8_delete_value_sequence_witness :
    (RegDelValue ⟨0, 0, 0, 0, 0⟩ ['H', 'K', 'C', 'U', '\\', 'S'] ['n']).trace =
      [RegAction.openKey RootKey.HKEY_CURRENT_USER ['S'] KEY_ALL_ACCESS,
       RegAction.deleteValue ['n'], RegAction.closeKey] ∧
    (RegDelValue ⟨0, 0, 0, 1, 0⟩ ['H', 'K', 'C', 'U', '\\', 'S'] ['n']).trace =
      [RegAction.openKey RootKey.HKEY_CURRENT_USER ['S'] KEY_ALL_ACCESS,
       RegAction.messageBox "failed to RegOpenKeyEx" "error" MB_ICONERROR] :=
  ⟨(c8_delete_value_sequence ⟨0, 0, 0, 0, 0⟩ ['H', 'K', 'C', 'U', '\\', 'S'] ['n']).1
      rfl rfl,
   (c8_delete_value_sequence ⟨0, 0, 0, 1, 0⟩ ['H', 'K', 'C', 'U', '\\', 'S'] ['n']).2.1
      (by decide)⟩


theorem errorMessages_ascii : ∀ m ∈ errorMessages, ∀ ch ∈ m.data, ch.toNat < 128 := by
  decide

/-- Claim C9: each of the four operations shows a message box exactly on
failure; every box shown is titled `"error"` with `MB_ICONERROR`, and its
text is one of the five fixed ASCII diagnostics, one per registry
primitive. -/
theorem c9_error_box_exactly_on_failure (env : RegEnv) (path vname value : WStr)
    (num vtype : Nat) :
    ((∃ a ∈ (RegWriteText env path vname value vtype).trace, isMessageBox a = true) ↔
      ¬(env.createKeyStatus = ERROR_SUCCESS ∧ env.setValueStatus = ERROR_SUCCESS)) ∧
    ((∃ a ∈ (RegWriteNum env path vname num vtype).trace, isMessageBox a = true) ↔
      ¬(env.createKeyStatus = ERROR_SUCCESS ∧ env.setValueStatus = ERROR_SUCCESS)) ∧
    ((∃ a ∈ (RegDelKey env path).trace, isMessageBox a = true) ↔
      ¬env.deleteKeyStatus = ERROR_SUCCESS) ∧
    ((∃ a ∈ (RegDelValue env path vname).trace, isMessageBox a = true) ↔
      ¬(env.openKeyStatus = ERROR_SUCCESS ∧ env.deleteValueStatus = ERROR_SUCCESS)) ∧
    (∀ msg cap u,
      (RegAction.messageBox msg cap u ∈ (RegWriteText env path vname value vtype).trace ∨
       RegAction.messageBox msg cap u ∈ (RegWriteNum env path vname num vtype).trace ∨
       RegAction.messageBox msg cap u ∈ (RegDelKey env path).trace ∨
       RegAction.messageBox msg cap u ∈ (RegDelValue env path vname).trace) →
      cap = "error" ∧ u = MB_ICONERROR ∧ msg ∈ errorMessages ∧
        ∀ ch ∈ msg.data, ch.toNat < 128) := by
  refine ⟨?_, ?_, ?_, ?_, ?_⟩
  · rw [RegWriteText_trace]
    by_cases h1 : env.createKeyStatus = ERROR_SUCCESS
    · by_cases h2 : env.setValueStatus = ERROR_SUCCESS
      · rw [if_pos h1, if_pos h2]
        constructor
        · rintro ⟨a, ha, hb⟩
          simp only [List.mem_cons, List.not_mem_nil, or_false] at ha
          rcases ha with rfl | rfl | rfl <;> exact Bool.noConfusion hb
        · intro hf
          exact absurd ⟨h1, h2⟩ hf
      · rw [if_pos h1, if_neg h2]
        constructor
        · intro _ hcon
          exact h2 hcon.2
        · intro _
          exact ⟨RegAction.messageBox "failed to RegSetValueEx" "error" MB_ICONERROR,
            by simp, rfl⟩
    · rw [if_neg h1]
      constructor
      · intro _ hcon
        exact h1 hcon.1
      · intro _
        exact ⟨RegAction.messageBox "failed to RegCreateKeyEx" "error" MB_ICONERROR,
          by simp, rfl⟩
  · rw [RegWriteNum_trace]
    by_cases h1 : env.createKeyStatus = ERROR_SUCCESS
    · by_cases h2 : env.setValueStatus = ERROR_SUCCESS
      · rw [if_pos h1, if_pos h2]
        constructor
        · rintro ⟨a, ha, hb⟩
          simp only [List.mem_cons, List.not_mem_nil, or_false] at ha
          rcases ha with rfl | rfl | rfl <;> exact Bool.noConfusion hb
        · intro hf
          exact absurd ⟨h1, h2⟩ hf
      · rw [if_pos h1, if_neg h2]
        constructor
        · intro _ hcon
          exact h2 hcon.2
        · intro _
          exact ⟨RegAction.messageBox "failed to RegSetValueEx" "error" MB_ICONERROR,
            by simp, rfl⟩
    · rw [if_neg h1]
      constructor
      · intro _ hcon
        exact h1 hcon.1
      · intro _
        exact ⟨RegAction.messageBox "failed to RegCreateKeyEx" "error" MB_ICONERROR,
          by simp, rfl⟩
  · rw [RegDelKey_trace]
    by_cases h3 : env.deleteKeyStatus = ERROR_SUCCESS
    · rw [if_pos h3]
      constructor
      · rintro ⟨a, ha, hb⟩
        simp only [List.mem_cons, List.not_mem_nil, or_false] at ha
        rcases ha with rfl | rfl <;> exact Bool.noConfusion hb
      · intro hf
        exact absurd h3 hf
    · rw [if_neg h3]
      constructor
      · intro _
        exact h3
      · intro _
        exact ⟨RegAction.messageBox "failed to RegDeleteKey" "error" MB_ICONERROR,
          by simp, rfl⟩
  · rw [RegDelValue_trace]
    by_cases h4 : env.openKeyStatus = ERROR_SUCCESS
    · by_cases h5 : env.deleteValueStatus = ERROR_SUCCESS
      · rw [if_pos h4, if_pos h5]
        constructor
        · rintro ⟨a, ha, hb⟩
          simp only [List.mem_cons, List.not_mem_nil, or_false] at ha
          rcases ha with rfl | rfl | rfl <;> exact Bool.noConfusion hb
        · intro hf
          exact absurd ⟨h4, h5⟩ hf
      · rw [if_pos h4, if_neg h5]
        constructor
        · intro _ hcon
          exact h5 hcon.2
        · intro _
          exact ⟨RegAction.messageBox "failed to RegDeleteValue" "error" MB_ICONERROR,
            by simp, rfl⟩
    · rw [if_neg h4]
      constructor
      · intro _ hcon
        exact h4 hcon.1
      · intro _
        exact ⟨RegAction.messageBox "failed to RegOpenKeyEx" "error" MB_ICONERROR,
          by simp, rfl⟩
  · intro msg cap u hm
    rcases hm with hm | hm | hm | hm
    · rw [RegWriteText_trace] at hm
      split_ifs at hm with h1 h2
      · simp only [List.mem_cons, List.not_mem_nil, or_false] at hm
        rcases hm with hm | hm | hm <;> first
          | exact RegAction.noConfusion hm
      · simp only [List.mem_cons, List.not_mem_nil, or_false] at hm
        rcases hm with hm | hm | hm
        · exact RegAction.noConfusion hm
        · exact RegAction.noConfusion hm
        · injection hm with e1 e2 e3
          subst e1; subst e2; subst e3
          exact ⟨rfl, rfl, by decide, errorMessages_ascii _ (by decide)⟩
      · simp only [List.mem_cons, List.not_mem_nil, or_false] at hm
        rcases hm with hm | hm
        · exact RegAction.noConfusion hm
        · injection hm with e1 e2 e3
          subst e1; subst e2; subst e3
          exact ⟨rfl, rfl, by decide, errorMessages_ascii _ (by decide)⟩
    · rw [RegWriteNum_trace] at hm
      split_ifs at hm with h1 h2
      · simp only [List.mem_cons, List.not_mem_nil, or_false] at hm
        rcases hm with hm | hm | hm <;> first
          | exact RegAction.noConfusion hm
      · simp only [List.mem_cons, List.not_mem_nil, or_false] at hm
        rcases hm with hm | hm | hm
        · exact RegAction.noConfusion hm
        · exact RegAction.noConfusion hm
        · injection hm with e1 e2 e3
          subst e1; subst e2; subst e3
          exact ⟨rfl, rfl, by decide, errorMessages_ascii _ (by decide)⟩
      · simp only [List.mem_cons, List.not_mem_nil, or_false] at hm
        rcases hm with hm | hm
        · exact RegAction.noConfusion hm
        · injection hm with e1 e2 e3
          subst e1; subst e2; subst e3
          exact ⟨rfl, rfl, by decide, errorMessages_ascii _ (by decide)⟩
    · rw [RegDelKey_trace] at hm
      split_ifs at hm with h3
      · simp only [List.mem_cons, List.not_mem_nil, or_false] at hm
        rcases hm with hm | hm <;> first
          | exact RegAction.noConfusion hm
      · simp only [List.mem_cons, List.not_mem_nil, or_false] at hm
        rcases hm with hm | hm
        · exact RegAction.noConfusion hm
        · injection hm with e1 e2 e3
          subst e1; subst e2; subst e3
          exact ⟨rfl, rfl, by decide, errorMessages_ascii _ (by decide)⟩
    · rw [RegDelValue_trace] at hm
      split_ifs at hm with h4 h5
      · simp only [List.mem_cons, List.not_mem_nil, or_false] at hm
        rcases hm with hm | hm | hm <;> first
          | exact RegAction.noConfusion hm
      · simp only [List.mem_cons, List.not_mem_nil, or_false] at hm
        rcases hm with hm | hm | hm
        · exact RegAction.noConfusion hm
        · exact RegAction.noConfusion hm
        · injection hm with e1 e2 e3
          subst e1; subst e2; subst e3
          exact ⟨rfl, rfl, by decide, errorMessages_ascii _ (by decide)⟩
      · simp only [List.mem_cons, List.not_mem_nil, or_false] at hm
        rcases hm with hm | hm
        · exact RegAction.noConfusion hm
        · injection hm with e1 e2 e3
          subst e1; subst e2; subst e3
          exact ⟨rfl, rfl, by decide, errorMessages_ascii _ (by decide)⟩

theorem c7_close_key_iff_all_steps_succeed_witness :
    RegAction.closeKey ∈ (RegWriteText ⟨0, 0, 0, 0, 0⟩ ['p'] ['n'] ['v'] 1).trace ∧
    RegAction.closeKey ∉ (RegWriteText ⟨0, 1, 0, 0, 0⟩ ['p'] ['n'] ['v'] 1).trace :=
  ⟨(c7_close_key_iff_all_steps_succeed ⟨0, 0, 0, 0, 0⟩ ['p'] ['n'] ['v'] 7 1).1.mpr
      ⟨rfl, rfl⟩,
   fun hmem => absurd
     ((c7_close_key_iff_all_steps_succeed ⟨0, 1, 0, 0, 0⟩ ['p'] ['n'] ['v'] 7 1).1.mp
       hmem).2 (by decide)⟩

theorem c9_error_box_exactly_on_failure_witness :
    (∃ a ∈ (RegDelKey ⟨0, 0, 1, 0, 0⟩ ['p']).trace, isMessageBox a = true) ∧
    ¬(∃ a ∈ (RegDelKey ⟨0, 0, 0, 0, 0⟩ ['p']).trace, isMessageBox a = true) :=
  ⟨(c9_error_box_exactly_on_failure ⟨0, 0, 1, 0, 0⟩ ['p'] ['n'] ['v'] 7 1).2.2.1.mpr
      (by decide),
   fun hex => absurd rfl
     ((c9_error_box_exactly_on_failure ⟨0, 0, 0, 0, 0⟩ ['p'] ['n'] ['v'] 7 1).2.2.1.mp
       hex)⟩
